import Mathlib

/-
Shallow embedding of the OCR API document/batch pipelines.

Source files embedded here:
  * src/home/ubuntu/ocr-api/src/services/ocrService.js   (class OCRService)
  * src/home/ubuntu/ocr-api/src/routes/pdfRoutes.js      (class PDFService)
  * src/ocr/home/ubuntu/ocr-api/src/controllers/ocrController.js (class OCRController)

Conventions of the embedding:
  * The Tesseract recognition engine and the pdf2pic rasterizer are opaque
    external collaborators; they are modelled as oracle functions passed in
    as parameters (engine failures are Except.error values carrying the
    thrown message).
  * JS numbers used for confidences are modelled as rationals, so that the
    averaging division is exact.
  * Filesystem unlink calls are modelled as a trace: every call to
    fs.unlinkSync inside a pipeline appends the path to a deletion list
    (the code swallows unlink failures, so the trace records the attempts,
    which is what the cleanup discipline of the code guarantees).
  * JS truthiness tests on strings (s is truthy iff s is non-empty) and the
    strict-equality test x === the string true are modelled explicitly.
-/

namespace OCRApi

/-- Characters treated as whitespace by the JavaScript String.prototype.trim
(ECMAScript WhiteSpace and LineTerminator code points). -/
def jsIsWhitespace (c : Char) : Bool :=
  [' ', '\t', '\n', '\r', '\x0B', '\x0C', '\u00A0', '\uFEFF', '\u1680',
   '\u2000', '\u2001', '\u2002', '\u2003', '\u2004', '\u2005', '\u2006',
   '\u2007', '\u2008', '\u2009', '\u200A', '\u2028', '\u2029', '\u202F',
   '\u205F', '\u3000'].contains c

/-- The JavaScript String.prototype.trim: strip leading and trailing
whitespace characters. -/
def jsTrim (s : String) : String :=
  String.mk (((s.toList.dropWhile jsIsWhitespace).reverse.dropWhile
    jsIsWhitespace).reverse)

/-- One positional text unit (word, line, paragraph or block) as mapped in
ocrService.js from the Tesseract data: text, confidence and bounding box. -/
structure TextUnit where
  text : String
  confidence : ℚ
  bboxX0 : Int
  bboxY0 : Int
  bboxX1 : Int
  bboxY1 : Int
deriving DecidableEq, Repr

/-- The result object built by OCRService.extractTextFromImage. -/
structure RecognitionResult where
  text : String
  confidence : ℚ
  words : List TextUnit
  lines : List TextUnit
  paragraphs : List TextUnit
  blocks : List TextUnit
deriving DecidableEq, Repr

/-- The supportedLanguages array of the OCRService constructor. -/
def ocrSupportedLanguages : List String :=
  ["eng", "ara", "ben", "bul", "ces", "chi_sim", "chi_tra", "dan",
   "deu", "ell", "fin", "fra", "heb", "hin", "hun", "ind", "ita",
   "jpn", "kor", "nld", "nor", "pol", "por", "ron", "rus", "spa",
   "swe", "tha", "tur", "ukr", "vie"]

/-- Splitting a character list on the plus character, JavaScript
String.prototype.split semantics: an empty input gives one empty group,
a trailing separator gives a trailing empty group. -/
def splitPlusChars : List Char → List (List Char)
  | [] => [[]]
  | c :: cs =>
      if c = '+' then [] :: splitPlusChars cs
      else
        match splitPlusChars cs with
        | [] => [[c]]
        | g :: gs => (c :: g) :: gs

/-- The JavaScript language.split of ocrService.js line 38. -/
def splitPlus (s : String) : List String :=
  (splitPlusChars s.toList).map (fun l => String.mk l)

/-- The first component of the language tag that is not in the supported
set: this is the component at which the validation loop of
ocrService.js lines 39-43 throws. -/
def firstUnsupported (language : String) : Option String :=
  (splitPlus language).find? (fun l => !(ocrSupportedLanguages.contains l))

/-- Raw data returned by the opaque Tesseract engine (the data field of the
Tesseract.recognize result). -/
structure EngineOut where
  text : String
  confidence : ℚ
  words : List TextUnit
  lines : List TextUnit
  paragraphs : List TextUnit
  blocks : List TextUnit
deriving DecidableEq, Repr

/-- OCRService.extractTextFromImage (ocrService.js lines 26-102), with the
engine as an oracle taking the image path and the language tag. Returns the
Except-modelled result together with a Bool recording whether the engine
was invoked. Unsupported-language throws are wrapped by the catch block
into the prefixed message, and the engine call only happens after the
validation loop finished without throwing. -/
def extractTextFromImage
    (engine : String → String → Except String EngineOut)
    (imagePath : String) (language : String) :
    Except String RecognitionResult × Bool :=
  match firstUnsupported language with
  | some lang =>
      (.error ("OCR processing failed: Unsupported language: " ++ lang), false)
  | none =>
      match engine imagePath language with
      | .ok d =>
          (.ok { text := jsTrim d.text, confidence := d.confidence,
                 words := d.words, lines := d.lines,
                 paragraphs := d.paragraphs, blocks := d.blocks }, true)
      | .error e => (.error ("OCR processing failed: " ++ e), true)

/-- One entry of the pageResults array of PDFService.extractTextFromPdf and
PDFService.extractTextFromPdfPages. Successful entries carry error = none;
failed entries carry the caught message. -/
structure PageData where
  pageNumber : Int
  text : String
  confidence : ℚ
  wordCount : Nat
  lineCount : Nat
  error : Option String
deriving DecidableEq, Repr

/-- JS truthiness of the error field as used by the filters
p goes to p.error and p goes to not p.error in the summaries: an absent
field and an empty string are both falsy. -/
def PageData.isFailedJS (p : PageData) : Bool :=
  match p.error with
  | none => false
  | some m => m ≠ ""

/-- Summary object of PDFService.extractTextFromPdf (pdfRoutes.js
lines 215-223). The wall-clock processingTime field is not modelled. -/
structure PdfSummary where
  totalPages : Nat
  totalWords : Nat
  averageConfidence : ℚ
  language : String
  successfulPages : Nat
  failedPages : Nat
deriving DecidableEq, Repr

/-- Result object of PDFService.extractTextFromPdf: text is none when
combinePages is false (the JS null). -/
structure PdfReport where
  text : Option String
  pages : List PageData
  summary : PdfSummary
deriving DecidableEq, Repr

/-- Mutable state of the page loop of extractTextFromPdf, plus the trace of
unlinked image paths. -/
structure PdfLoopState where
  pageResults : List PageData
  combinedText : String
  totalConfidence : ℚ
  totalWords : Nat
  deleted : List String
deriving Repr

/-- The page-number separator inserted into the combined text at
pdfRoutes.js line 181. -/
def pageSeparator (n : Nat) : String :=
  "\n\n--- Page " ++ toString n ++ " ---\n\n"

/-- One iteration of the page loop of extractTextFromPdf (pdfRoutes.js
lines 154-207): run OCR on the page image, push the page record (success or
caught failure), extend the combined text, accumulate totals, then unlink
the image. The pair ip is the 0-based loop index together with the image
path. -/
def pdfPageStep (ocr : String → Except String RecognitionResult)
    (combinePages includePageNumbers : Bool)
    (s : PdfLoopState) (ip : Nat × String) : PdfLoopState :=
  match ocr ip.2 with
  | .ok r =>
      { pageResults := s.pageResults ++
          [{ pageNumber := ((ip.1 + 1 : Nat) : Int), text := r.text,
             confidence := r.confidence, wordCount := r.words.length,
             lineCount := r.lines.length, error := none }],
        combinedText :=
          if combinePages then
            (if includePageNumbers ∧ jsTrim r.text ≠ "" then
               s.combinedText ++ pageSeparator (ip.1 + 1)
             else s.combinedText) ++ r.text ++ "\n"
          else s.combinedText,
        totalConfidence := s.totalConfidence + r.confidence,
        totalWords := s.totalWords + r.words.length,
        deleted := s.deleted ++ [ip.2] }
  | .error e =>
      { pageResults := s.pageResults ++
          [{ pageNumber := ((ip.1 + 1 : Nat) : Int), text := "",
             confidence := 0, wordCount := 0, lineCount := 0,
             error := some e }],
        combinedText := s.combinedText,
        totalConfidence := s.totalConfidence,
        totalWords := s.totalWords,
        deleted := s.deleted ++ [ip.2] }

/-- The page loop of extractTextFromPdf over the indexed image paths. -/
def pdfLoop (ocr : String → Except String RecognitionResult)
    (combinePages includePageNumbers : Bool) :
    List (Nat × String) → PdfLoopState → PdfLoopState
  | [], s => s
  | ip :: rest, s =>
      pdfLoop ocr combinePages includePageNumbers rest
        (pdfPageStep ocr combinePages includePageNumbers s ip)

/-- Body of PDFService.extractTextFromPdf after a successful rasterization
returning imagePaths (pdfRoutes.js lines 148-227), paired with the trace of
deleted image files. -/
def extractTextFromPdfCore (ocr : String → Except String RecognitionResult)
    (combinePages includePageNumbers : Bool) (language : String)
    (imagePaths : List String) : PdfReport × List String :=
  let s := pdfLoop ocr combinePages includePageNumbers
    (List.enumFrom 0 imagePaths) ⟨[], "", 0, 0, []⟩
  let averageConfidence : ℚ :=
    if 0 < imagePaths.length then
      s.totalConfidence / (imagePaths.length : ℚ)
    else 0
  ({ text := if combinePages then some (jsTrim s.combinedText) else none,
     pages := s.pageResults,
     summary := { totalPages := imagePaths.length,
                  totalWords := s.totalWords,
                  averageConfidence := averageConfidence,
                  language := language,
                  successfulPages :=
                    (s.pageResults.filter (fun p => !p.isFailedJS)).length,
                  failedPages :=
                    (s.pageResults.filter (fun p => p.isFailedJS)).length } },
   s.deleted)

/-- PDFService.extractTextFromPdf with the rasterization outcome made
explicit: on rasterization failure the outer catch rethrows the wrapped
message and no image file was created or deleted. -/
def extractTextFromPdf (ocr : String → Except String RecognitionResult)
    (combinePages includePageNumbers : Bool) (language : String)
    (raster : Except String (List String)) :
    Except String PdfReport × List String :=
  match raster with
  | .error e =>
      (.error ("PDF OCR processing failed: Failed to convert PDF to images: "
        ++ e), [])
  | .ok imagePaths =>
      let rd := extractTextFromPdfCore ocr combinePages includePageNumbers
        language imagePaths
      (.ok rd.1, rd.2)

/-- Summary object of PDFService.extractTextFromPdfPages (pdfRoutes.js
lines 333-342). -/
structure PdfPagesSummary where
  requestedPages : Nat
  totalPagesInPdf : Nat
  totalWords : Nat
  averageConfidence : ℚ
  language : String
  successfulPages : Nat
  failedPages : Nat
deriving DecidableEq, Repr

/-- Result object of PDFService.extractTextFromPdfPages (no combined
text). -/
structure PdfPagesReport where
  pages : List PageData
  summary : PdfPagesSummary
deriving DecidableEq, Repr

/-- Mutable state of the requested-page loop of extractTextFromPdfPages. -/
structure PagesLoopState where
  pageResults : List PageData
  totalConfidence : ℚ
  totalWords : Nat
deriving Repr

/-- The page record pushed for one requested page number by
extractTextFromPdfPages (pdfRoutes.js lines 267-316): an out-of-range
number yields the descriptive failure record, otherwise the page image is
recognized and a success or caught-failure record is pushed. This record
depends only on the requested number, the oracle and the rasterized
paths, never on the other requested numbers. -/
def pagesOutcome (ocr : String → Except String RecognitionResult)
    (allImagePaths : List String) (pageNum : Int) : PageData :=
  if pageNum - 1 < 0 ∨ (allImagePaths.length : Int) ≤ pageNum - 1 then
    { pageNumber := pageNum, text := "", confidence := 0, wordCount := 0,
      lineCount := 0,
      error := some ("Page " ++ toString pageNum ++
        " does not exist. PDF has " ++ toString allImagePaths.length ++
        " pages.") }
  else
    match ocr (allImagePaths.getD (pageNum - 1).toNat ("")) with
    | .ok r =>
        { pageNumber := pageNum, text := r.text, confidence := r.confidence,
          wordCount := r.words.length, lineCount := r.lines.length,
          error := none }
    | .error e =>
        { pageNumber := pageNum, text := "", confidence := 0,
          wordCount := 0, lineCount := 0, error := some e }

/-- One iteration of the requested-page loop of extractTextFromPdfPages,
accumulating the pushed record and the running totals (totals only grow on
the success branch). -/
def pagesStep (ocr : String → Except String RecognitionResult)
    (allImagePaths : List String) (s : PagesLoopState) (pageNum : Int) :
    PagesLoopState :=
  let p := pagesOutcome ocr allImagePaths pageNum
  { pageResults := s.pageResults ++ [p],
    totalConfidence :=
      if p.error = none then s.totalConfidence + p.confidence
      else s.totalConfidence,
    totalWords :=
      if p.error = none then s.totalWords + p.wordCount else s.totalWords }

/-- The requested-page loop of extractTextFromPdfPages. -/
def pagesLoop (ocr : String → Except String RecognitionResult)
    (allImagePaths : List String) : List Int → PagesLoopState → PagesLoopState
  | [], s => s
  | n :: rest, s => pagesLoop ocr allImagePaths rest
      (pagesStep ocr allImagePaths s n)

/-- Body of PDFService.extractTextFromPdfPages after a successful
rasterization (pdfRoutes.js lines 262-346), paired with the trace of the
cleanup loop that unlinks every rasterized image after processing. -/
def extractTextFromPdfPagesCore (ocr : String → Except String RecognitionResult)
    (pageNumbers : List Int) (language : String)
    (allImagePaths : List String) : PdfPagesReport × List String :=
  let s := pagesLoop ocr allImagePaths pageNumbers ⟨[], 0, 0⟩
  let deleted := allImagePaths.foldl (fun d p => d ++ [p]) []
  let averageConfidence : ℚ :=
    if 0 < s.pageResults.length then
      s.totalConfidence / (s.pageResults.length : ℚ)
    else 0
  ({ pages := s.pageResults,
     summary := { requestedPages := pageNumbers.length,
                  totalPagesInPdf := allImagePaths.length,
                  totalWords := s.totalWords,
                  averageConfidence := averageConfidence,
                  language := language,
                  successfulPages :=
                    (s.pageResults.filter (fun p => !p.isFailedJS)).length,
                  failedPages :=
                    (s.pageResults.filter (fun p => p.isFailedJS)).length } },
   deleted)

/-- PDFService.extractTextFromPdfPages with the rasterization outcome made
explicit, as for extractTextFromPdf. -/
def extractTextFromPdfPages (ocr : String → Except String RecognitionResult)
    (pageNumbers : List Int) (language : String)
    (raster : Except String (List String)) :
    Except String PdfPagesReport × List String :=
  match raster with
  | .error e =>
      (.error
        ("PDF selective OCR processing failed: Failed to convert PDF to images: "
          ++ e), [])
  | .ok allImagePaths =>
      let rd := extractTextFromPdfPagesCore ocr pageNumbers language
        allImagePaths
      (.ok rd.1, rd.2)

/-- The per-file metadata carried through OCRController.batchExtract. -/
structure FileInfo where
  path : String
  originalName : String
  size : Nat
  mimetype : String
deriving DecidableEq, Repr

/-- One entry of the results array of OCRController.batchExtract
(ocrController.js lines 196-231): the success push carries the data fields,
the failure push carries the caught message; both carry the file info and
the 0-based input index. -/
inductive BatchOutcome where
  | succeeded (index : Nat) (file : FileInfo) (text : String)
      (confidence : ℚ) (wordCount lineCount : Nat)
  | failed (index : Nat) (file : FileInfo) (message : String)
deriving DecidableEq, Repr

/-- The success flag of a batch result entry. -/
def BatchOutcome.isSuccess : BatchOutcome → Bool
  | .succeeded .. => true
  | .failed .. => false

/-- The 0-based index stored in the fileInfo of a batch result entry. -/
def BatchOutcome.index : BatchOutcome → Nat
  | .succeeded i .. => i
  | .failed i .. => i

/-- The error field of a batch result entry: present exactly on the failure
push. -/
def BatchOutcome.errorField : BatchOutcome → Option String
  | .succeeded .. => none
  | .failed _ _ m => some m

/-- The outcome pushed for the file at 0-based index i by the batch loop:
a per-item try/catch around the OCR service call, so one item failing is
contained in its own entry. -/
def batchItemOutcome (ocr : String → Except String RecognitionResult)
    (i : Nat) (f : FileInfo) : BatchOutcome :=
  match ocr f.path with
  | .ok r => .succeeded i f r.text r.confidence r.words.length r.lines.length
  | .error e => .failed i f e

/-- The batch loop of OCRController.batchExtract over the indexed files. -/
def batchLoop (ocr : String → Except String RecognitionResult) :
    List (Nat × FileInfo) → List BatchOutcome → List BatchOutcome
  | [], acc => acc
  | nf :: rest, acc =>
      batchLoop ocr rest (acc ++ [batchItemOutcome ocr nf.1 nf.2])

/-- Summary object of OCRController.batchExtract (ocrController.js
lines 240-246). -/
structure BatchSummary where
  totalFiles : Nat
  successfulFiles : Nat
  failedFiles : Nat
  language : String
deriving DecidableEq, Repr

/-- The data object of a successful batchExtract response. -/
structure BatchResponse where
  results : List BatchOutcome
  summary : BatchSummary
deriving DecidableEq, Repr

/-- OCRController.batchExtract (ocrController.js lines 173-264): an empty
upload list is rejected up front with the NO_FILES error; otherwise every
file is processed sequentially in input order and the summary is computed
from the success flags. -/
def batchExtract (ocr : String → Except String RecognitionResult)
    (language : String) (files : List FileInfo) :
    Except String BatchResponse :=
  if files.length = 0 then .error ("No files uploaded")
  else
    let results := batchLoop ocr (List.enumFrom 0 files) []
    let successCount := (results.filter (fun r => r.isSuccess)).length
    .ok { results := results,
          summary := { totalFiles := files.length,
                       successfulFiles := successCount,
                       failedFiles := files.length - successCount,
                       language := language } }

/-- A request-body value for one of the four include flags of
OCRController.extractDetailedText: either the string sent by the client or
the boolean default true produced by the destructuring when the field is
omitted. -/
inductive JSFlagVal where
  | str (s : String)
  | boolTrue
deriving DecidableEq, Repr

/-- The destructuring default of ocrController.js lines 102-105: an omitted
flag becomes the boolean true. -/
def flagOrDefault : Option String → JSFlagVal
  | some s => .str s
  | none => .boolTrue

/-- The strict-equality test of ocrController.js lines 140-149, comparing
the flag value with the string true: a boolean never strictly equals a
string, so the boolean default fails this test. -/
def strictEqTrueStr : JSFlagVal → Bool
  | .str s => s = "true"
  | .boolTrue => false

/-- The data object of the extractDetailedText response: the four unit
arrays are attached only when the corresponding flag passes the
strict-equality test. -/
structure DetailedData where
  text : String
  confidence : ℚ
  words : Option (List TextUnit)
  lines : Option (List TextUnit)
  paragraphs : Option (List TextUnit)
  blocks : Option (List TextUnit)
deriving DecidableEq, Repr

/-- OCRController.extractDetailedText (ocrController.js lines 95-168) on
the success path, given the recognition result and the four include-flag
request fields (none models an omitted field). -/
def extractDetailedText
    (includeWords includeLines includeParagraphs includeBlocks : Option String)
    (r : RecognitionResult) : DetailedData :=
  { text := r.text,
    confidence := r.confidence,
    words :=
      if strictEqTrueStr (flagOrDefault includeWords) then some r.words
      else none,
    lines :=
      if strictEqTrueStr (flagOrDefault includeLines) then some r.lines
      else none,
    paragraphs :=
      if strictEqTrueStr (flagOrDefault includeParagraphs) then
        some r.paragraphs
      else none,
    blocks :=
      if strictEqTrueStr (flagOrDefault includeBlocks) then some r.blocks
      else none }

/-- The raster files created by a rasterization outcome: a failed
pdf2pic conversion is modelled as creating no page images. -/
def rasterArtifacts : Except String (List String) → List String
  | .ok paths => paths
  | .error _ => []

/-- Combined text as the words of the claim describe it: the plain
concatenation, in report order, of each page record's text, with the bare
marker placed before a page exactly when that page's trimmed text is
non-empty. Defined from the claim, not from the source, to be compared
against the source's combined text. -/
def claimCombinedText (pages : List PageData) : String :=
  String.join (pages.map (fun p =>
    (if jsTrim p.text ≠ "" then
       "--- Page " ++ toString p.pageNumber ++ " ---"
     else "") ++ p.text))

/-- The page record pushed by one iteration of the extractTextFromPdf page
loop, as a function of the 0-based index and image path alone: the success
push or the caught-failure push. -/
def pdfPageRecord (ocr : String → Except String RecognitionResult)
    (ip : Nat × String) : PageData :=
  match ocr ip.2 with
  | .ok r =>
      { pageNumber := ((ip.1 + 1 : Nat) : Int), text := r.text,
        confidence := r.confidence, wordCount := r.words.length,
        lineCount := r.lines.length, error := none }
  | .error e =>
      { pageNumber := ((ip.1 + 1 : Nat) : Int), text := "", confidence := 0,
        wordCount := 0, lineCount := 0, error := some e }

/-- The bytes appended to the combined text by the indexed pages, written
as a recursive function over the indexed path list: a successful page
appends its optional separator, its text and a newline; a failed page
appends nothing. -/
def combinedFrom (ocr : String → Except String RecognitionResult)
    (includePageNumbers : Bool) : List (Nat × String) → String
  | [] => ""
  | ip :: rest =>
      (match ocr ip.2 with
       | .ok r =>
           (if includePageNumbers ∧ jsTrim r.text ≠ "" then
              pageSeparator (ip.1 + 1)
            else "") ++ r.text ++ "\n"
       | .error _ => "") ++ combinedFrom ocr includePageNumbers rest

/-- The combined-text layout actually produced by extractTextFromPdf,
expressed declaratively over the page records of the report: join, over the
successful pages in report order, of the separator (present exactly when
the trimmed page text is non-empty) followed by the page text and a
newline. -/
def combinedOfPages (pages : List PageData) : String :=
  String.join ((pages.filter (fun p => p.error = none)).map (fun p =>
    (if jsTrim p.text ≠ "" then
       "\n\n--- Page " ++ toString p.pageNumber ++ " ---\n\n"
     else "") ++ p.text ++ "\n"))

/-- Sum of the confidences of the successful page records of a report. -/
def successConfSum (pages : List PageData) : ℚ :=
  ((pages.filter (fun p => p.error = none)).map (fun p => p.confidence)).sum

/-- A sample word unit for the concrete test oracle. -/
def unitW : TextUnit :=
  { text := "w", confidence := 90, bboxX0 := 0,
    bboxY0 := 0, bboxX1 := 1, bboxY1 := 1 }

/-- A sample successful recognition result with confidence 80. -/
def rHi : RecognitionResult :=
  { text := "hi", confidence := 80,
    words := [unitW], lines := [unitW], paragraphs := [], blocks := [] }

/-- A sample successful recognition result with confidence 100. -/
def rYo : RecognitionResult :=
  { text := "yo", confidence := 100,
    words := [], lines := [], paragraphs := [], blocks := [] }

/-- A concrete OCR oracle: succeeds on the paths p1 and p2, fails on every
other path with the message the service-level catch block would produce. -/
def ocrCx (p : String) : Except String RecognitionResult :=
  if p = "p1" then .ok rHi
  else if p = "p2" then .ok rYo
  else .error ("OCR processing failed: boom")

/-- A concrete recognition engine that always succeeds, for witnesses of
the language-validation claim. -/
def engineCx (_imagePath _language : String) : Except String EngineOut :=
  .ok { text := "hi", confidence := 80, words := [], lines := [],
        paragraphs := [], blocks := [] }

/-- Sample batch upload processed successfully (its path is p1). -/
def fileA : FileInfo :=
  { path := "p1", originalName := "a.png", size := 10,
    mimetype := "image/png" }

/-- Sample batch upload whose recognition fails (its path is not p1/p2). -/
def fileB : FileInfo :=
  { path := "zz", originalName := "b.png", size := 11,
    mimetype := "image/png" }

/-- Second successfully processed sample batch upload (its path is p2). -/
def fileC : FileInfo :=
  { path := "p2", originalName := "c.png", size := 12,
    mimetype := "image/png" }

/-- The concrete batch response produced by batchExtract on the sample
files with the sample oracle, used to discharge the witness of the batch
claims. -/
def batchRespCx : BatchResponse :=
  { results := [ .succeeded 0 fileA ("hi") 80 1 1,
                 .failed 1 fileB ("OCR processing failed: boom"),
                 .succeeded 2 fileC ("yo") 100 0 0 ],
    summary := { totalFiles := 3, successfulFiles := 2, failedFiles := 1,
                 language := "eng" } }

theorem stringFoldl_append (l : List String) :
    ∀ a : String, l.foldl (fun r s => r ++ s) a =
      a ++ l.foldl (fun r s => r ++ s) "" := by
  induction l with
  | nil => intro a; simp
  | cons x xs ih =>
      intro a
      simp only [List.foldl]
      rw [ih (a ++ x), ih (("" : String) ++ x), String.empty_append,
        String.append_assoc]

theorem stringJoin_cons (s : String) (l : List String) :
    String.join (s :: l) = s ++ String.join l := by
  simp only [String.join, List.foldl]
  rw [stringFoldl_append l (("" : String) ++ s), String.empty_append]

theorem filter_length_split (p : α → Bool) (l : List α) :
    (l.filter (fun a => !(p a))).length + (l.filter p).length = l.length := by
  induction l with
  | nil => simp
  | cons x xs ih =>
      by_cases h : p x <;> simp [List.filter, h, ← ih] <;> omega

theorem foldl_append_singleton (l : List String) :
    ∀ acc : List String, l.foldl (fun d p => d ++ [p]) acc = acc ++ l := by
  induction l with
  | nil => intro acc; simp
  | cons x xs ih => intro acc; simp [List.foldl, ih]

theorem pdfLoop_pageResults (ocr : String → Except String RecognitionResult)
    (cp ipn : Bool) (l : List (Nat × String)) :
    ∀ s : PdfLoopState, (pdfLoop ocr cp ipn l s).pageResults =
      s.pageResults ++ l.map (pdfPageRecord ocr) := by
  induction l with
  | nil => intro s; simp [pdfLoop]
  | cons ip rest ih =>
      intro s
      rw [pdfLoop, ih]
      cases h : ocr ip.2 <;> simp [pdfPageStep, pdfPageRecord, h]

theorem pdfLoop_deleted (ocr : String → Except String RecognitionResult)
    (cp ipn : Bool) (l : List (Nat × String)) :
    ∀ s : PdfLoopState, (pdfLoop ocr cp ipn l s).deleted =
      s.deleted ++ l.map Prod.snd := by
  induction l with
  | nil => intro s; simp [pdfLoop]
  | cons ip rest ih =>
      intro s
      rw [pdfLoop, ih]
      cases h : ocr ip.2 <;> simp [pdfPageStep, h]

theorem pdfLoop_totalConfidence
    (ocr : String → Except String RecognitionResult)
    (cp ipn : Bool) (l : List (Nat × String)) :
    ∀ s : PdfLoopState, (pdfLoop ocr cp ipn l s).totalConfidence =
      s.totalConfidence + successConfSum (l.map (pdfPageRecord ocr)) := by
  induction l with
  | nil => intro s; simp [pdfLoop, successConfSum]
  | cons ip rest ih =>
      intro s
      rw [pdfLoop, ih]
      cases h : ocr ip.2 <;>
        simp [pdfPageStep, pdfPageRecord, h, successConfSum, List.filter] <;>
        ring

theorem pdfLoop_combinedText (ocr : String → Except String RecognitionResult)
    (cp ipn : Bool) (l : List (Nat × String)) :
    ∀ s : PdfLoopState, (pdfLoop ocr cp ipn l s).combinedText =
      if cp then s.combinedText ++ combinedFrom ocr ipn l
      else s.combinedText := by
  induction l with
  | nil => intro s; cases cp <;> simp [pdfLoop, combinedFrom]
  | cons ip rest ih =>
      intro s
      rw [pdfLoop, ih]
      cases cp
      · cases h : ocr ip.2 <;> simp [pdfPageStep, h]
      · cases h : ocr ip.2 with
        | ok r =>
            simp only [pdfPageStep, h, combinedFrom, if_true]
            split_ifs with hm <;>
              simp [String.append_assoc, String.empty_append]
        | error e => simp [pdfPageStep, h, combinedFrom]

theorem pagesLoop_pageResults (ocr : String → Except String RecognitionResult)
    (paths : List String) (nums : List Int) :
    ∀ s : PagesLoopState, (pagesLoop ocr paths nums s).pageResults =
      s.pageResults ++ nums.map (pagesOutcome ocr paths) := by
  induction nums with
  | nil => intro s; simp [pagesLoop]
  | cons n rest ih =>
      intro s
      rw [pagesLoop, ih]
      simp [pagesStep]

theorem pagesLoop_totalConfidence
    (ocr : String → Except String RecognitionResult)
    (paths : List String) (nums : List Int) :
    ∀ s : PagesLoopState, (pagesLoop ocr paths nums s).totalConfidence =
      s.totalConfidence + successConfSum (nums.map (pagesOutcome ocr paths)) := by
  induction nums with
  | nil => intro s; simp [pagesLoop, successConfSum]
  | cons n rest ih =>
      intro s
      rw [pagesLoop, ih]
      by_cases h : (pagesOutcome ocr paths n).error = none <;>
        simp [pagesStep, h, successConfSum, List.filter] <;> ring

theorem batchLoop_results (ocr : String → Except String RecognitionResult)
    (l : List (Nat × FileInfo)) :
    ∀ acc : List BatchOutcome, batchLoop ocr l acc =
      acc ++ l.map (fun nf => batchItemOutcome ocr nf.1 nf.2) := by
  induction l with
  | nil => intro acc; simp [batchLoop]
  | cons nf rest ih =>
      intro acc
      rw [batchLoop, ih]
      simp

theorem toString_natCastInt (n : Nat) : toString ((n : Int)) = toString n :=
  rfl

theorem combinedOfPages_map (ocr : String → Except String RecognitionResult)
    (l : List (Nat × String)) :
    combinedOfPages (l.map (pdfPageRecord ocr)) = combinedFrom ocr true l := by
  induction l with
  | nil => simp [combinedOfPages, combinedFrom, String.join]
  | cons ip rest ih =>
      cases h : ocr ip.2 with
      | ok r =>
          simp only [combinedFrom, h, List.map_cons]
          rw [← ih]
          simp only [combinedOfPages, pdfPageRecord, h, List.filter_cons,
            decide_eq_true_eq, if_true, List.map_cons]
          rw [stringJoin_cons]
          simp only [toString_natCastInt, pageSeparator, true_and]
      | error e =>
          simp only [combinedFrom, h, List.map_cons]
          rw [← ih, String.empty_append]
          simp [combinedOfPages, pdfPageRecord, h, List.filter_cons]

theorem append_ne_empty_left (a b : String) (h : a ≠ "") : a ++ b ≠ "" := by
  intro hab
  apply h
  have hd := congrArg String.data hab
  rw [String.data_append] at hd
  simp only [List.append_eq_nil] at hd
  cases a
  simp_all

theorem pagesOutcome_pageNumber (ocr : String → Except String RecognitionResult)
    (paths : List String) (n : Int) :
    (pagesOutcome ocr paths n).pageNumber = n := by
  unfold pagesOutcome
  split
  · rfl
  · cases h : ocr (paths.getD (n - 1).toNat ("")) <;> simp [h]

theorem pdfPageRecord_isFailed (ocr : String → Except String RecognitionResult)
    (hocr : ∀ p e, ocr p = .error e → e ≠ "") (ip : Nat × String) :
    (pdfPageRecord ocr ip).isFailedJS =
      decide ((pdfPageRecord ocr ip).error ≠ none) := by
  cases h : ocr ip.2 with
  | ok r => simp [pdfPageRecord, h, PageData.isFailedJS]
  | error e =>
      simp [pdfPageRecord, h, PageData.isFailedJS]
      exact hocr ip.2 e h

theorem pagesOutcome_isFailed (ocr : String → Except String RecognitionResult)
    (hocr : ∀ p e, ocr p = .error e → e ≠ "") (paths : List String) (n : Int) :
    (pagesOutcome ocr paths n).isFailedJS =
      decide ((pagesOutcome ocr paths n).error ≠ none) := by
  unfold pagesOutcome
  split
  · simp only [PageData.isFailedJS, ne_eq, decide_not]
    have hne : ("Page " ++ toString n ++ " does not exist. PDF has " ++
        toString paths.length ++ " pages.") ≠ "" := by
      refine append_ne_empty_left _ _ ?_
      refine append_ne_empty_left _ _ ?_
      refine append_ne_empty_left _ _ ?_
      refine append_ne_empty_left _ _ ?_
      decide
    simp [hne]
  · cases h : ocr (paths.getD (n - 1).toNat ("")) with
    | ok r => simp [h, PageData.isFailedJS]
    | error e =>
        simp [h, PageData.isFailedJS]
        exact hocr _ e h

theorem pdfRecord_pageNumbers (ocr : String → Except String RecognitionResult)
    (paths : List String) :
    ∀ n : Nat, ((List.enumFrom n paths).map (pdfPageRecord ocr)).map
        (fun p => p.pageNumber) =
      (List.range' (n + 1) paths.length).map (fun i : Nat => (i : Int)) := by
  induction paths with
  | nil => intro n; simp [List.enumFrom]
  | cons q rest ih =>
      intro n
      simp only [List.enumFrom, List.map_cons, List.length_cons,
        List.range'_succ]
      cases h : ocr q with
      | ok r => simp [pdfPageRecord, h, ih (n + 1)]
      | error e => simp [pdfPageRecord, h, ih (n + 1)]

theorem filter_isFailed_map_pdf (ocr : String → Except String RecognitionResult)
    (hocr : ∀ p e, ocr p = .error e → e ≠ "") (l : List (Nat × String)) :
    (l.map (pdfPageRecord ocr)).filter (fun p => p.isFailedJS) =
      (l.map (pdfPageRecord ocr)).filter (fun p => p.error ≠ none) := by
  refine List.filter_congr ?_
  intro p hp
  simp only [List.mem_map] at hp
  obtain ⟨ip, _, rfl⟩ := hp
  exact pdfPageRecord_isFailed ocr hocr ip

theorem filter_isFailed_map_pages (ocr : String → Except String RecognitionResult)
    (hocr : ∀ p e, ocr p = .error e → e ≠ "") (paths : List String)
    (nums : List Int) :
    (nums.map (pagesOutcome ocr paths)).filter (fun p => p.isFailedJS) =
      (nums.map (pagesOutcome ocr paths)).filter (fun p => p.error ≠ none) := by
  refine List.filter_congr ?_
  intro p hp
  simp only [List.mem_map] at hp
  obtain ⟨n, _, rfl⟩ := hp
  exact pagesOutcome_isFailed ocr hocr paths n

theorem batchOutcome_failed_eq (ocr : String → Except String RecognitionResult)
    (i : Nat) (f : FileInfo) :
    (!(batchItemOutcome ocr i f).isSuccess) =
      decide ((batchItemOutcome ocr i f).errorField ≠ none) := by
  cases h : ocr f.path <;>
    simp [batchItemOutcome, h, BatchOutcome.isSuccess, BatchOutcome.errorField]

theorem batchOutcome_index (ocr : String → Except String RecognitionResult)
    (i : Nat) (f : FileInfo) : (batchItemOutcome ocr i f).index = i := by
  cases h : ocr f.path <;> simp [batchItemOutcome, h, BatchOutcome.index]

theorem ocrCx_errors_nonempty : ∀ p e, ocrCx p = .error e → e ≠ "" := by
  intro p e h
  unfold ocrCx at h
  split_ifs at h <;> simp_all
  intro he
  rw [he] at h
  exact absurd (congrArg String.data h.symm) (by decide)

/-- C4: the claim says each of the four include flags of the detailed-image
operation defaults, when omitted, to including the corresponding unit set.
The code defaults each flag to the boolean true but then gates inclusion on
a strict string comparison with the string true, which the boolean default
never passes: with all four flags omitted the response carries none of the
four unit arrays, while sending the literal string true does attach the
array. The destructuring defaults show the inclusive intent, so this is a
slip in the code rather than in the specification. -/
theorem c4_include_flag_defaults (r : RecognitionResult) :
    (extractDetailedText none none none none r).words = none ∧
    (extractDetailedText none none none none r).lines = none ∧
    (extractDetailedText none none none none r).paragraphs = none ∧
    (extractDetailedText none none none none r).blocks = none ∧
    (extractDetailedText (some ("true")) (some ("true")) (some ("true"))
      (some ("true")) r).words = some r.words := by
  refine ⟨rfl, rfl, rfl, rfl, ?_⟩
  simp [extractDetailedText, strictEqTrueStr, flagOrDefault]

/-- C5: every transient raster image created by a document-pipeline
invocation is deleted before the invocation returns, on every exit path:
the deletion trace of extractTextFromPdf and of extractTextFromPdfPages
equals the creation list of the rasterization outcome for every oracle,
every option combination, and every requested-page list; on the error path
the rasterizer failed and created nothing, and nothing is deleted. -/
theorem c5_transient_cleanup (ocr : String → Except String RecognitionResult)
    (cp ipn : Bool) (lang : String) (nums : List Int)
    (raster : Except String (List String)) :
    (extractTextFromPdf ocr cp ipn lang raster).2 = rasterArtifacts raster ∧
    (extractTextFromPdfPages ocr nums lang raster).2 =
      rasterArtifacts raster := by
  cases raster with
  | error e => exact ⟨rfl, rfl⟩
  | ok paths =>
      constructor
      · show (extractTextFromPdfCore ocr cp ipn lang paths).2 = paths
        unfold extractTextFromPdfCore
        simp [pdfLoop_deleted, List.enumFrom_map_snd]
      · show (extractTextFromPdfPagesCore ocr nums lang paths).2 = paths
        unfold extractTextFromPdfPagesCore
        simp [foldl_append_singleton]

/-- C8: extractTextFromPdfPages emits page outcomes in exactly the
requested order with duplicates honored, one outcome per occurrence (the
page numbers of the report read back as the requested list, and the number
of outcomes equals the number of requests), while extractTextFromPdf
always emits outcomes in document order 1, 2, ..., totalPages. -/
theorem c8_outcome_order (ocr : String → Except String RecognitionResult)
    (cp ipn : Bool) (lang : String) (paths : List String) (nums : List Int) :
    ((extractTextFromPdfPagesCore ocr nums lang paths).1.pages.map
        (fun p => p.pageNumber) = nums) ∧
    ((extractTextFromPdfPagesCore ocr nums lang paths).1.pages.length =
      nums.length) ∧
    ((extractTextFromPdfCore ocr cp ipn lang paths).1.pages.map
        (fun p => p.pageNumber) =
      (List.range' 1 paths.length).map (fun i : Nat => (i : Int))) := by
  refine ⟨?_, ?_, ?_⟩
  · unfold extractTextFromPdfPagesCore
    simp only [pagesLoop_pageResults, List.nil_append, List.map_map]
    have hcongr : List.map ((fun p => p.pageNumber) ∘ pagesOutcome ocr paths)
        nums = List.map (fun n => n) nums :=
      List.map_congr_left (fun n _ => pagesOutcome_pageNumber ocr paths n)
    rw [hcongr, List.map_id']
  · unfold extractTextFromPdfPagesCore
    simp [pagesLoop_pageResults]
  · unfold extractTextFromPdfCore
    simp only [pdfLoop_pageResults, List.nil_append]
    exact pdfRecord_pageNumbers ocr paths 0

/-- C2 counterexample: on a one-page document whose page reads hi, the
combined text produced with page-number markers is the marker line
surrounded by blank lines, not the plain byte-for-byte concatenation of
marker and page text that the claim describes: the code inserts two
newlines around the marker and a newline after the page text, then trims
the whole string. -/
theorem c2_counterexample :
    (extractTextFromPdfCore ocrCx true true ("eng") ["p1"]).1.text =
      some ("--- Page 1 ---\n\nhi") ∧
    claimCombinedText
        ((extractTextFromPdfCore ocrCx true true ("eng") ["p1"]).1.pages) =
      "--- Page 1 ---hi" ∧
    ("--- Page 1 ---\n\nhi" : String) ≠ "--- Page 1 ---hi" := by
  decide

/-- C2 amended: with the combine and page-number options set, the combined
text of the report is the trimmed join, over the successful pages in
document order, of a separator consisting of two newlines, the marker
dashes around the page number, and two more newlines (present exactly when
the page's trimmed text is non-empty), followed by the page's text and a
terminating newline; failed pages contribute no bytes. -/
theorem c2_combined_text_amended
    (ocr : String → Except String RecognitionResult) (lang : String)
    (paths : List String) :
    (extractTextFromPdfCore ocr true true lang paths).1.text =
      some (jsTrim (combinedOfPages
        ((extractTextFromPdfCore ocr true true lang paths).1.pages))) := by
  unfold extractTextFromPdfCore
  simp only [pdfLoop_pageResults, pdfLoop_combinedText, List.nil_append,
    if_true, String.empty_append]
  rw [combinedOfPages_map]

/-- C1 counterexample: a three-page document whose first two pages succeed
with confidences 80 and 100 and whose third page fails does not report
average confidence 90: the code divides the confidence total by the total
page count, so the report shows 60. -/
theorem c1_counterexample :
    (((extractTextFromPdfCore ocrCx true true ("eng")
        ["p1", "p2", "zz"]).1.pages.filter (fun p => p.error = none)).map
        (fun p => p.confidence) = [80, 100]) ∧
    (extractTextFromPdfCore ocrCx true true ("eng")
        ["p1", "p2", "zz"]).1.summary.averageConfidence = 60 := by
  constructor
  · decide
  · unfold extractTextFromPdfCore
    simp only [pdfLoop_totalConfidence]
    simp [successConfSum, List.enumFrom, pdfPageRecord, ocrCx, rHi, rYo]
    norm_num

/-- C1 amended: for both document operations the reported average
confidence is the sum of the confidences of the successful page outcomes
divided by the total number of page outcomes in the report (not by the
number of successes), and it is 0 when the report has no page outcomes; in
particular it equals the claimed successes-only average exactly when no
page failed. -/
theorem c1_average_confidence_amended
    (ocr : String → Except String RecognitionResult) (cp ipn : Bool)
    (lang : String) (paths : List String) (nums : List Int) :
    ((extractTextFromPdfCore ocr cp ipn lang paths).1.summary.averageConfidence =
      if (extractTextFromPdfCore ocr cp ipn lang paths).1.pages.length = 0
      then 0
      else successConfSum
          ((extractTextFromPdfCore ocr cp ipn lang paths).1.pages) /
        (((extractTextFromPdfCore ocr cp ipn lang paths).1.pages.length : ℚ))) ∧
    ((extractTextFromPdfPagesCore ocr nums lang paths).1.summary.averageConfidence =
      if (extractTextFromPdfPagesCore ocr nums lang paths).1.pages.length = 0
      then 0
      else successConfSum
          ((extractTextFromPdfPagesCore ocr nums lang paths).1.pages) /
        (((extractTextFromPdfPagesCore ocr nums lang paths).1.pages.length : ℚ))) := by
  constructor
  · unfold extractTextFromPdfCore
    simp only [pdfLoop_pageResults, pdfLoop_totalConfidence, List.nil_append,
      zero_add, List.length_map, List.enumFrom_length]
    rcases Nat.eq_zero_or_pos paths.length with h0 | hpos
    · simp [h0]
    · rw [if_pos hpos, if_neg (by omega)]
  · unfold extractTextFromPdfPagesCore
    simp only [pagesLoop_pageResults, pagesLoop_totalConfidence,
      List.nil_append, zero_add, List.length_map]
    rcases Nat.eq_zero_or_pos nums.length with h0 | hpos
    · simp [h0]
    · rw [if_pos hpos, if_neg (by omega)]

/-- C3 counterexample: requesting page 7 of a two-page document yields a
failure outcome whose message says PDF, not Document: the exact message
the claim states is not the one the code produces. -/
theorem c3_counterexample :
    (extractTextFromPdfPagesCore ocrCx [7] ("eng") ["p1", "p2"]).1.pages =
      [{ pageNumber := 7, text := "", confidence := 0, wordCount := 0,
         lineCount := 0,
         error := some ("Page 7 does not exist. PDF has 2 pages.") }] ∧
    ("Page 7 does not exist. PDF has 2 pages." : String) ≠
      "Page 7 does not exist. Document has 2 pages." := by
  decide

/-- C3 amended: a requested page number outside 1..M produces a failure
outcome whose message is exactly the sentence Page N does not exist. PDF
has M pages. (with the word PDF, not Document); the request as a whole is
not aborted, and each outcome of the report is a function of its own
requested number alone (the report is the pointwise map of the
per-request outcome function over the requested list), so valid requested
pages are unaffected by the presence of an out-of-range request. -/
theorem c3_out_of_range_amended
    (ocr : String → Except String RecognitionResult) (lang : String)
    (paths : List String) (nums : List Int) :
    ((extractTextFromPdfPages ocr nums lang (.ok paths)).1 =
      .ok (extractTextFromPdfPagesCore ocr nums lang paths).1) ∧
    ((extractTextFromPdfPagesCore ocr nums lang paths).1.pages =
      nums.map (pagesOutcome ocr paths)) ∧
    (∀ n : Int, n < 1 ∨ (paths.length : Int) < n →
      pagesOutcome ocr paths n =
        { pageNumber := n, text := "", confidence := 0, wordCount := 0,
          lineCount := 0,
          error := some ("Page " ++ toString n ++
            " does not exist. PDF has " ++ toString paths.length ++
            " pages.") }) := by
  refine ⟨rfl, ?_, ?_⟩
  · unfold extractTextFromPdfPagesCore
    simp [pagesLoop_pageResults]
  · intro n hn
    have hc : n - 1 < 0 ∨ (paths.length : Int) ≤ n - 1 := by omega
    unfold pagesOutcome
    rw [if_pos hc]

/-- C3 witness: the amended out-of-range description evaluated at the
concrete request for page 7 of a two-page document. -/
theorem c3_witness :
    pagesOutcome ocrCx ["p1", "p2"] 7 =
      { pageNumber := 7, text := "", confidence := 0, wordCount := 0,
        lineCount := 0,
        error := some ("Page " ++ toString (7 : Int) ++
          " does not exist. PDF has " ++
          toString (List.length (["p1", "p2"] : List String)) ++
          " pages.") } :=
  (c3_out_of_range_amended ocrCx ("eng") ["p1", "p2"] [7, 1]).2.2 7 (by decide)

/-- C7 counterexample: the page-subset operation honors duplicate and
out-of-range requested numbers, so a report can carry the same page number
twice (request 1,1 on a one-page document) and can carry a page number
outside 1..totalPages (request 3 on a one-page document), refuting the
uniqueness-and-range invariant as stated for every report of the document
pipeline. -/
theorem c7_counterexample :
    ((extractTextFromPdfPagesCore ocrCx [1, 1] ("eng") ["p1"]).1.pages.map
        (fun p => p.pageNumber) = [1, 1]) ∧
    ¬ ((extractTextFromPdfPagesCore ocrCx [1, 1] ("eng") ["p1"]).1.pages.map
        (fun p => p.pageNumber)).Nodup ∧
    ¬ (∀ p ∈ (extractTextFromPdfPagesCore ocrCx [3] ("eng") ["p1"]).1.pages,
        1 ≤ p.pageNumber ∧
        p.pageNumber ≤ (List.length (["p1"] : List String) : Int)) := by
  refine ⟨by decide, by decide, ?_⟩
  intro hall
  have hq := hall (pagesOutcome ocrCx ["p1"] 3) (by decide)
  rw [pagesOutcome_pageNumber] at hq
  have hlen : ((List.length (["p1"] : List String) : Int)) = 1 := by decide
  rw [hlen] at hq
  omega

/-- C7 amended: the whole-document operation satisfies the invariant: its
page numbers are exactly 1..M, pairwise distinct and within range. The
page-subset operation instead copies each requested number into the
corresponding outcome, so its reports satisfy uniqueness and range exactly
when the requested list itself is duplicate-free with every entry in
1..M. -/
theorem c7_page_number_invariant_amended
    (ocr : String → Except String RecognitionResult) (cp ipn : Bool)
    (lang : String) (paths : List String) (nums : List Int) :
    (((extractTextFromPdfCore ocr cp ipn lang paths).1.pages.map
        (fun p => p.pageNumber)).Nodup ∧
     ∀ p ∈ (extractTextFromPdfCore ocr cp ipn lang paths).1.pages,
       1 ≤ p.pageNumber ∧ p.pageNumber ≤ (paths.length : Int)) ∧
    ((extractTextFromPdfPagesCore ocr nums lang paths).1.pages.map
        (fun p => p.pageNumber) = nums) ∧
    ((nums.Nodup ∧ ∀ n ∈ nums, 1 ≤ n ∧ n ≤ (paths.length : Int)) →
      ((extractTextFromPdfPagesCore ocr nums lang paths).1.pages.map
          (fun p => p.pageNumber)).Nodup ∧
      ∀ p ∈ (extractTextFromPdfPagesCore ocr nums lang paths).1.pages,
        1 ≤ p.pageNumber ∧ p.pageNumber ≤ (paths.length : Int)) := by
  have hpdf : (extractTextFromPdfCore ocr cp ipn lang paths).1.pages.map
      (fun p => p.pageNumber) =
      (List.range' 1 paths.length).map (fun i : Nat => (i : Int)) := by
    unfold extractTextFromPdfCore
    simp only [pdfLoop_pageResults, List.nil_append]
    exact pdfRecord_pageNumbers ocr paths 0
  have hsub : (extractTextFromPdfPagesCore ocr nums lang paths).1.pages =
      nums.map (pagesOutcome ocr paths) := by
    unfold extractTextFromPdfPagesCore
    simp [pagesLoop_pageResults]
  refine ⟨⟨?_, ?_⟩, ?_, ?_⟩
  · rw [hpdf]
    exact (List.nodup_range' 1 paths.length).map
      (fun a b hab => Int.ofNat.inj hab)
  · intro p hp
    have hmem : p.pageNumber ∈
        (extractTextFromPdfCore ocr cp ipn lang paths).1.pages.map
          (fun p => p.pageNumber) := List.mem_map_of_mem _ hp
    rw [hpdf] at hmem
    simp only [List.mem_map, List.mem_range'_1] at hmem
    obtain ⟨i, ⟨h1, h2⟩, hip⟩ := hmem
    rw [← hip]
    omega
  · rw [hsub, List.map_map]
    have hcongr : List.map ((fun p => p.pageNumber) ∘ pagesOutcome ocr paths)
        nums = List.map (fun n => n) nums :=
      List.map_congr_left (fun n _ => pagesOutcome_pageNumber ocr paths n)
    rw [hcongr, List.map_id']
  · rintro ⟨hnd, hbd⟩
    constructor
    · rw [hsub, List.map_map]
      have hcongr : List.map
          ((fun p => p.pageNumber) ∘ pagesOutcome ocr paths) nums =
          List.map (fun n => n) nums :=
        List.map_congr_left (fun n _ => pagesOutcome_pageNumber ocr paths n)
      rw [hcongr, List.map_id']
      exact hnd
    · intro p hp
      rw [hsub] at hp
      simp only [List.mem_map] at hp
      obtain ⟨n, hn, rfl⟩ := hp
      rw [pagesOutcome_pageNumber]
      exact hbd n hn

/-- C7 witness: the amended conditional invariant for the page-subset
operation, evaluated at the duplicate-free in-range request for page 1 of
a one-page document. -/
theorem c7_witness :
    ((extractTextFromPdfPagesCore ocrCx [1] ("eng") ["p1"]).1.pages.map
        (fun p => p.pageNumber)).Nodup :=
  ((c7_page_number_invariant_amended ocrCx true true ("eng") ["p1"]
      [1]).2.2 ⟨by decide, by decide⟩).1

/-- C6: for every non-empty batch, the results array is the pointwise map
of the per-item outcome function over the indexed input files, so outcomes
appear in input order, the i-th outcome carries index i, an item succeeds
exactly when its own recognition call succeeds regardless of the other
items, and a failing item is recorded as a failure entry while the batch
call itself still returns its response (nothing raises past the batch
boundary). -/
theorem c6_batch_order (ocr : String → Except String RecognitionResult)
    (lang : String) (files : List FileInfo) (resp : BatchResponse)
    (h : batchExtract ocr lang files = .ok resp) :
    resp.results = (List.enumFrom 0 files).map
        (fun nf => batchItemOutcome ocr nf.1 nf.2) ∧
    resp.results.length = files.length ∧
    (∀ i f, (batchItemOutcome ocr i f).index = i) ∧
    (∀ i f, ((batchItemOutcome ocr i f).isSuccess = true ↔
      ∃ r, ocr f.path = .ok r)) := by
  unfold batchExtract at h
  split_ifs at h with h0
  simp only [Except.ok.injEq] at h
  subst h
  refine ⟨?_, ?_, ?_, ?_⟩
  · simp [batchLoop_results]
  · simp [batchLoop_results, List.enumFrom_length]
  · intro i f
    exact batchOutcome_index ocr i f
  · intro i f
    cases hh : ocr f.path <;>
      simp [batchItemOutcome, hh, BatchOutcome.isSuccess]

/-- C6 witness: the ordering contract evaluated on the concrete
valid-invalid-valid batch, whose response is the success-failure-success
list recorded in batchRespCx. -/
theorem c6_witness :
    batchRespCx.results = (List.enumFrom 0 [fileA, fileB, fileC]).map
        (fun nf => batchItemOutcome ocrCx nf.1 nf.2) ∧
    batchRespCx.results.length = List.length [fileA, fileB, fileC] :=
  ⟨(c6_batch_order ocrCx ("eng") [fileA, fileB, fileC] batchRespCx rfl).1,
   (c6_batch_order ocrCx ("eng") [fileA, fileB, fileC] batchRespCx rfl).2.1⟩

/-- C9: a recognition request whose language tag splits on the plus sign
into components of which at least one is outside the supported-language
set fails with an error before the recognition engine is invoked, and a
tag all of whose components are supported passes validation and reaches
the engine. -/
theorem c9_language_validation
    (engine : String → String → Except String EngineOut)
    (imagePath language : String) :
    ((∃ c ∈ splitPlus language, c ∉ ocrSupportedLanguages) →
      (extractTextFromImage engine imagePath language).2 = false ∧
      ∃ e, (extractTextFromImage engine imagePath language).1 = .error e) ∧
    ((∀ c ∈ splitPlus language, c ∈ ocrSupportedLanguages) →
      (extractTextFromImage engine imagePath language).2 = true) := by
  constructor
  · rintro ⟨c, hc, hcn⟩
    have hsome : (firstUnsupported language).isSome := by
      rw [firstUnsupported, List.find?_isSome]
      exact ⟨c, hc, by simpa using hcn⟩
    obtain ⟨l, hl⟩ := Option.isSome_iff_exists.mp hsome
    unfold extractTextFromImage
    rw [hl]
    exact ⟨rfl, _, rfl⟩
  · intro hall
    have hnone : firstUnsupported language = none := by
      rw [firstUnsupported, List.find?_eq_none]
      intro x hx
      simpa using hall x hx
    unfold extractTextFromImage
    rw [hnone]
    cases engine imagePath language <;> rfl

/-- C9 witness: the validation contract evaluated at the composite tags
eng+xyz (second component unsupported: validation fails and the engine is
not reached) and eng+fra (both components supported: the engine is
reached). -/
theorem c9_witness :
    (extractTextFromImage engineCx ("img") ("eng+xyz")).2 = false ∧
    (extractTextFromImage engineCx ("img") ("eng+fra")).2 = true :=
  ⟨((c9_language_validation engineCx ("img") ("eng+xyz")).1
      ⟨"xyz", by decide, by decide⟩).1,
   (c9_language_validation engineCx ("img") ("eng+fra")).2 (by decide)⟩

/-- C10: the summary counts of every report are consistent: for both
document operations successfulPages plus failedPages equals the number of
page outcomes; for the batch operation successfulFiles plus failedFiles
equals totalFiles, which equals the number of inputs and of outcomes, and
failedFiles counts exactly the outcomes carrying an error field; and
whenever the recognition oracle only throws non-empty messages (as the
OCR service does, since it always prefixes the message), failedPages for
both document operations counts exactly the page outcomes carrying an
error field. -/
theorem c10_summary_counts (ocr : String → Except String RecognitionResult)
    (cp ipn : Bool) (lang : String) (paths : List String) (nums : List Int)
    (files : List FileInfo) :
    ((extractTextFromPdfCore ocr cp ipn lang paths).1.summary.successfulPages +
      (extractTextFromPdfCore ocr cp ipn lang paths).1.summary.failedPages =
      (extractTextFromPdfCore ocr cp ipn lang paths).1.pages.length) ∧
    ((extractTextFromPdfPagesCore ocr nums lang paths).1.summary.successfulPages +
      (extractTextFromPdfPagesCore ocr nums lang paths).1.summary.failedPages =
      (extractTextFromPdfPagesCore ocr nums lang paths).1.pages.length) ∧
    (∀ resp : BatchResponse, batchExtract ocr lang files = .ok resp →
      resp.summary.successfulFiles + resp.summary.failedFiles =
        resp.summary.totalFiles ∧
      resp.summary.totalFiles = files.length ∧
      resp.results.length = files.length ∧
      resp.summary.failedFiles =
        (resp.results.filter (fun r => r.errorField ≠ none)).length) ∧
    ((∀ p e, ocr p = .error e → e ≠ "") →
      ((extractTextFromPdfCore ocr cp ipn lang paths).1.summary.failedPages =
        ((extractTextFromPdfCore ocr cp ipn lang paths).1.pages.filter
          (fun p => p.error ≠ none)).length) ∧
      ((extractTextFromPdfPagesCore ocr nums lang paths).1.summary.failedPages =
        ((extractTextFromPdfPagesCore ocr nums lang paths).1.pages.filter
          (fun p => p.error ≠ none)).length)) := by
  refine ⟨?_, ?_, ?_, ?_⟩
  · unfold extractTextFromPdfCore
    simp only []
    exact filter_length_split (fun p : PageData => p.isFailedJS) _
  · unfold extractTextFromPdfPagesCore
    simp only []
    exact filter_length_split (fun p : PageData => p.isFailedJS) _
  · intro resp h
    unfold batchExtract at h
    split_ifs at h with h0
    simp only [Except.ok.injEq] at h
    subst h
    simp only [batchLoop_results, List.nil_append]
    have hle : ((((List.enumFrom 0 files).map
        (fun nf => batchItemOutcome ocr nf.1 nf.2)).filter
        (fun r => r.isSuccess)).length ≤ files.length) := by
      calc ((((List.enumFrom 0 files).map
          (fun nf => batchItemOutcome ocr nf.1 nf.2)).filter
          (fun r => r.isSuccess)).length)
          ≤ (((List.enumFrom 0 files).map
              (fun nf => batchItemOutcome ocr nf.1 nf.2)).length) :=
            List.length_filter_le _ _
        _ = files.length := by simp [List.enumFrom_length]
    refine ⟨by omega, by trivial, by simp [List.enumFrom_length], ?_⟩
    have hsplit := filter_length_split (fun r : BatchOutcome => r.isSuccess)
      ((List.enumFrom 0 files).map (fun nf => batchItemOutcome ocr nf.1 nf.2))
    have hcongr : (((List.enumFrom 0 files).map
        (fun nf => batchItemOutcome ocr nf.1 nf.2)).filter
        (fun r => !(r.isSuccess))) =
        (((List.enumFrom 0 files).map
          (fun nf => batchItemOutcome ocr nf.1 nf.2)).filter
          (fun r => r.errorField ≠ none)) := by
      refine List.filter_congr ?_
      intro r hr
      simp only [List.mem_map] at hr
      obtain ⟨nf, _, rfl⟩ := hr
      exact batchOutcome_failed_eq ocr nf.1 nf.2
    rw [← hcongr]
    have hlen : (((List.enumFrom 0 files).map
        (fun nf => batchItemOutcome ocr nf.1 nf.2)).length) = files.length := by
      simp [List.enumFrom_length]
    omega
  · intro hocr
    constructor
    · unfold extractTextFromPdfCore
      simp only [pdfLoop_pageResults, List.nil_append]
      rw [filter_isFailed_map_pdf ocr hocr]
    · unfold extractTextFromPdfPagesCore
      simp only [pagesLoop_pageResults, List.nil_append]
      rw [filter_isFailed_map_pages ocr hocr]

/-- C10 witness: the count-consistency facts evaluated on a concrete
two-page document with one failing page and on the concrete
valid-invalid-valid batch. -/
theorem c10_witness :
    ((extractTextFromPdfCore ocrCx true true ("eng")
        ["p1", "zz"]).1.summary.failedPages =
      ((extractTextFromPdfCore ocrCx true true ("eng")
        ["p1", "zz"]).1.pages.filter (fun p => p.error ≠ none)).length) ∧
    (batchRespCx.summary.successfulFiles + batchRespCx.summary.failedFiles =
      batchRespCx.summary.totalFiles) :=
  ⟨((c10_summary_counts ocrCx true true ("eng") ["p1", "zz"] [1]
      [fileA, fileB, fileC]).2.2.2 ocrCx_errors_nonempty).1,
   ((c10_summary_counts ocrCx true true ("eng") ["p1", "zz"] [1]
      [fileA, fileB, fileC]).2.2.1 batchRespCx rfl).1⟩

end OCRApi
